import Mathlib

/-!
# AEFI quiz chatbot — verification of the conversation engine

Shallow embedding of `src/app.py` (the WhatsApp quiz bot).  The module-level
DataFrame `df` is modelled as a `List Row`; a pandas row cell is a `Cell`
(`absent` = the column is not in the frame, so subscripting raises `KeyError`;
`nan` = the column exists but the cell is NA, which `pd.notna` rejects and
f-string interpolation renders as "nan"; `val s` = a proper value, stringified).
`user_sessions` is an association list from the sender id to a `Session`
record with the same two fields as the Python dict (`score`, `q_index`).

The `webhook` POST handler runs inside one big `try/except` that swallows
every exception and always answers HTTP 200; mutations made before a raise
persist (Python dicts are mutated in place), which the embedding reproduces
by threading the session store explicitly and returning the store as it was
at the point of the raise.
-/

set_option maxRecDepth 8192

/-- One pandas cell as the handler observes it. -/
inductive Cell where
  | absent
  | nan
  | val (s : String)
deriving Repr, DecidableEq

/-- `pd.notna` on a cell (NA and missing both fail the check in the code). -/
def Cell.notna : Cell → Bool
  | .val _ => true
  | _ => false

/-- `row[col]` followed by f-string interpolation: `none` models the
`KeyError` raised when the column is absent; an NA cell interpolates
as the string "nan". -/
def Cell.interp : Cell → Option String
  | .absent => none
  | .nan => some "nan"
  | .val s => some s

/-- `row.get(col, default)` followed by interpolation: missing columns give
the default, NA cells give "nan". -/
def Cell.getD (c : Cell) (d : String) : String :=
  match c with
  | .absent => d
  | .nan => "nan"
  | .val s => s

/-- One row of the Excel sheet, restricted to the columns `app.py` reads:
"Question", the first column (the fallback prompt), "Option 1".."Option 4",
"Correct Option" (as `int(...)` sees it: `none` when the conversion raises),
and the "Explanation k" columns keyed here by the suffix `k`. -/
structure Row where
  questionCell : Cell
  firstCol : String
  opt1 : Cell
  opt2 : Cell
  opt3 : Cell
  opt4 : Cell
  correctOption : Option Int
  explanations : List (String × Cell)
deriving Repr, DecidableEq

/-- The cell of column "Option i" (absent for i outside 1..4). -/
def Row.optCell (r : Row) : Nat → Cell
  | 1 => r.opt1
  | 2 => r.opt2
  | 3 => r.opt3
  | 4 => r.opt4
  | _ => .absent

/-- The cell of column "Option s" when the column name suffix is the raw
string `s` (as in `row[f'Option {correct_option}']`). -/
def Row.optCellByStr (r : Row) (s : String) : Cell :=
  if s = "1" then r.opt1
  else if s = "2" then r.opt2
  else if s = "3" then r.opt3
  else if s = "4" then r.opt4
  else .absent

/-- The option-collection loop of `send_question`: for i in 1..4 keep
`(i, str(cell))` when the column is present and the cell is not NA. -/
def collectOptions (r : Row) : List (Nat × String) :=
  [1, 2, 3, 4].filterMap fun i =>
    match r.optCell i with
    | .val s => some (i, s)
    | _ => none

/-- `row.get(f"Explanation {key}", default)` with the placeholder default. -/
def explGet (r : Row) (key : String) : String :=
  match r.explanations.find? (fun p => p.1 = key) with
  | some p => p.2.getD "कोई विवरण उपलब्ध नहीं।"
  | none => "कोई विवरण उपलब्ध नहीं।"

/-- `question_text`: the "Question" cell when present and not NA, else the
first column. -/
def questionText (r : Row) : String :=
  match r.questionCell with
  | .val s => s
  | _ => r.firstCol

/-- The per-user session dict value: `{"score": 0, "q_index": None}`. -/
structure Session where
  score : Nat
  q_index : Option Nat
deriving Repr, DecidableEq

/-- The in-memory `user_sessions` dict, as an association list. -/
abbrev Sessions := List (String × Session)

def lookupSession : Sessions → String → Option Session
  | [], _ => none
  | (k, v) :: t, u => if k = u then some v else lookupSession t u

def setSession : Sessions → String → Session → Sessions
  | [], u, s => [(u, s)]
  | (k, v) :: t, u, s => if k = u then (u, s) :: t else (k, v) :: setSession t u s

def eraseSession : Sessions → String → Sessions
  | [], _ => []
  | (k, v) :: t, u => if k = u then t else (k, v) :: eraseSession t u

/-- Outbound provider calls the handler can make. -/
inductive Outbound where
  | text (toId : String) (body : String)
  | buttons (toId : String) (body : String) (btns : List (String × String))
  | list (toId : String) (body : String) (buttonLabel : String)
      (rows : List (String × String))
deriving Repr, DecidableEq

/-- `send_start_prompt`. -/
def startPrompt (toId : String) : Outbound :=
  Outbound.buttons toId
    "नमस्ते! AEFI प्रशिक्षण बॉट में आपका स्वागत है 🙏\nक्या आप क्विज़ शुरू करना चाहेंगे?"
    [("start_quiz", "शुरू करें ✅")]

/-- Python `title[:20]`: the first 20 characters. -/
def truncate20 (s : String) : String := s.take 20

/-- The interactive payload `send_question` builds for a row at `qIndex`:
buttons when at most 3 options were collected, a single-section list
otherwise; ids are the option numbers as strings, titles are truncated. -/
def renderRow (toId : String) (qIndex : Nat) (r : Row) : Outbound :=
  let body := "प्रश्न " ++ toString (qIndex + 1) ++ ": " ++ questionText r
  let opts := collectOptions r
  if opts.length ≤ 3 then
    Outbound.buttons toId body (opts.map fun p => (toString p.1, truncate20 p.2))
  else
    Outbound.list toId body "विकल्प चुनें"
      (opts.map fun p => (toString p.1, truncate20 p.2))

/-- `send_question`: the early no-data text when the frame is empty, else
the rendered question for row `qIndex`; `none` models the `IndexError`
from `df.iloc` on an out-of-range index. -/
def send_question (bank : List Row) (toId : String) (qIndex : Nat) :
    Option (List Outbound) :=
  if bank.isEmpty then some [Outbound.text toId "⚠️ प्रश्न डेटा उपलब्ध नहीं है।"]
  else bank[qIndex]?.map fun r => [renderRow toId qIndex r]

/-- The `message["interactive"]` sub-object: its `type` field and, for the
two recognised types, the reply id. -/
inductive InteractiveReply where
  | buttonReply (id : String)
  | listReply (id : String)
  | unknown
deriving Repr, DecidableEq

/-- The `button_id` extraction: the reply id for the two recognised
interactive types, `none` for an unknown sub-type. -/
def InteractiveReply.idOf : InteractiveReply → Option String
  | .buttonReply i => some i
  | .listReply i => some i
  | .unknown => none

/-- The `type` of the inbound message. -/
inductive MsgType where
  | text
  | interactive (r : InteractiveReply)
  | other
deriving Repr, DecidableEq

/-- An inbound message: `fromId = none` models a missing "from" key
(`KeyError` inside the try block). -/
structure Message where
  fromId : Option String
  mtype : MsgType
deriving Repr, DecidableEq

/-- An inbound webhook delivery: either structurally malformed (no
`messages` array reachable, or the entry/changes path itself raises) or
carrying exactly one message. -/
inductive Event where
  | malformed
  | withMessage (m : Message)
deriving Repr, DecidableEq

/-- Result of one POST `/webhook` invocation: the session store after the
call, the outbound sends made (in order), and the HTTP status returned. -/
abbrev WebhookResult := Sessions × List Outbound × Nat

/-- The answer branch of the handler ("Case 2: User answered a question"),
entered with the session already ensured and the reply id `bid` known not
to be "start_quiz". `ss1` is the store after the ensure step; `sess` is the
current session value. Raised exceptions are caught by the outer handler,
returning the store as already mutated with no further sends. -/
def handleAnswer (bank : List Row) (ss1 : Sessions) (u : String)
    (sess : Session) (bid : String) : WebhookResult :=
  match sess.q_index with
  | none => (ss1, [], 200)
  | some qi =>
    match bank[qi]? with
    | none => (ss1, [], 200)
    | some row =>
      match row.correctOption with
      | none => (ss1, [], 200)
      | some co =>
        let correct := toString co
        if bid = correct then
          let sess2 : Session := { sess with score := sess.score + 1 }
          let ss2 := setSession ss1 u sess2
          let out1 := Outbound.text u ("✅ सही उत्तर!\n" ++ explGet row bid)
          let newIdx := qi + 1
          if newIdx < bank.length then
            let ss3 := setSession ss2 u { sess2 with q_index := some newIdx }
            (ss3, out1 :: (send_question bank u newIdx).getD [], 200)
          else
            let ss3 := setSession ss2 u { sess2 with q_index := some newIdx }
            (eraseSession ss3 u,
             [out1, Outbound.text u ("🎉 प्रशिक्षण पूरा हुआ!\nआपका स्कोर: "
               ++ toString sess2.score ++ "/" ++ toString bank.length)], 200)
        else
          let correctExpl := explGet row correct
          match (row.optCellByStr correct).interp with
          | none => (ss1, [], 200)
          | some optText =>
            let out1 := Outbound.text u ("❌ गलत उत्तर।\n👉 सही उत्तर: " ++ optText
              ++ "\nℹ️ कारण: " ++ correctExpl)
            let newIdx := qi + 1
            if newIdx < bank.length then
              let ss3 := setSession ss1 u { sess with q_index := some newIdx }
              (ss3, out1 :: (send_question bank u newIdx).getD [], 200)
            else
              let ss3 := setSession ss1 u { sess with q_index := some newIdx }
              (eraseSession ss3 u,
               [out1, Outbound.text u ("🎉 प्रशिक्षण पूरा हुआ!\nआपका स्कोर: "
                 ++ toString sess.score ++ "/" ++ toString bank.length)], 200)

/-- The POST `/webhook` handler. Always answers 200 (the outer
`try/except` swallows every exception, and every explicit return is 200). -/
def webhook (bank : List Row) (ss : Sessions) (ev : Event) : WebhookResult :=
  match ev with
  | .malformed => (ss, [], 200)
  | .withMessage m =>
    match m.fromId with
    | none => (ss, [], 200)
    | some u =>
      let ss1 := match lookupSession ss u with
        | some _ => ss
        | none => setSession ss u ⟨0, none⟩
      let sess := (lookupSession ss1 u).getD ⟨0, none⟩
      match m.mtype with
      | .text =>
        if sess.q_index = none then (ss1, [startPrompt u], 200)
        else (ss1, [], 200)
      | .other => (ss1, [], 200)
      | .interactive r =>
        match r.idOf with
        | none => (ss1, [], 200)
        | some bid =>
          if bid = "" then (ss1, [], 200)
          else if bid = "start_quiz" then
            let ss2 := setSession ss1 u { sess with q_index := some 0 }
            if bank.isEmpty then
              (ss2, [Outbound.text u "⚠️ कोई प्रश्न लोड नहीं हुआ। Excel फ़ाइल देखें।"], 200)
            else (ss2, (send_question bank u 0).getD [], 200)
          else handleAnswer bank ss1 u sess bid

/-- A plain text delivery from `u`. -/
def textEvent (u : String) : Event := Event.withMessage ⟨some u, MsgType.text⟩

/-- An interactive delivery from `u`. -/
def interactiveEvent (u : String) (r : InteractiveReply) : Event :=
  Event.withMessage ⟨some u, MsgType.interactive r⟩

/-- The data-model invariant of §3 of the spec, at the row level: the
"Correct Option" cell converts to an integer that is the number of one of
the collected (present, non-NA) options. -/
def rowOK (r : Row) : Bool :=
  match r.correctOption with
  | some co => (collectOptions r).any fun p => (p.1 : Int) = co
  | none => false

/-- Fixture: a two-option row whose correct option is 1. -/
def rowQ1 : Row :=
  ⟨Cell.val "Q1", "Q1", Cell.val "A", Cell.val "B", Cell.absent, Cell.absent,
   some 1, []⟩

/-- Fixture: a two-option row whose correct option is 2. -/
def rowQ2 : Row :=
  ⟨Cell.val "Q2", "Q2", Cell.val "C", Cell.val "D", Cell.absent, Cell.absent,
   some 2, []⟩

/-- Fixture: a two-question bank of well-formed rows. -/
def bank2 : List Row := [rowQ1, rowQ2]

/-- Fixture: a single-row bank violating the §3 invariant — the stored
correct option 5 is not among the collected options. -/
def rowBad5 : Row :=
  ⟨Cell.val "Q", "Q", Cell.val "A", Cell.absent, Cell.absent, Cell.absent,
   some 5, []⟩

/-- Fixture: a row violating the §3 invariant the other way — the stored
correct option is 2 and the "Option 2" column exists, but its cell is
blank (NA), so 2 is not among the collected options. -/
def rowNan2 : Row :=
  ⟨Cell.val "Q", "Q", Cell.val "A", Cell.nan, Cell.absent, Cell.absent,
   some 2, []⟩

/-- Fixture: the store with one user on question 0 and score 0. -/
def ssU0 : Sessions := [("u", {score := 0, q_index := some 0})]

section StoreLemmas

theorem lookupSession_setSession_self (ss : Sessions) (u : String) (s : Session) :
    lookupSession (setSession ss u s) u = some s := by
  induction ss with
  | nil => simp [setSession, lookupSession]
  | cons p t ih =>
    obtain ⟨k, v⟩ := p
    by_cases h : k = u
    · simp [setSession, lookupSession, h]
    · simp [setSession, lookupSession, h, ih]

theorem lookupSession_eq_none_of_not_mem (ss : Sessions) (u : String)
    (h : u ∉ ss.map Prod.fst) : lookupSession ss u = none := by
  induction ss with
  | nil => simp [lookupSession]
  | cons p t ih =>
    obtain ⟨k, v⟩ := p
    simp only [List.map_cons, List.mem_cons] at h
    push_neg at h
    simp [lookupSession, fun hk : k = u => h.1 hk.symm, ih h.2]
    intro hk
    exact absurd hk.symm h.1

theorem mem_keys_setSession (ss : Sessions) (u : String) (s : Session)
    (x : String) :
    x ∈ (setSession ss u s).map Prod.fst → x ∈ ss.map Prod.fst ∨ x = u := by
  induction ss with
  | nil =>
    intro hx
    simp only [setSession, List.map_cons, List.map_nil, List.mem_singleton] at hx
    exact Or.inr hx
  | cons p t ih =>
    obtain ⟨k, v⟩ := p
    intro hx
    by_cases h : k = u
    · rw [setSession, if_pos h] at hx
      simp only [List.map_cons, List.mem_cons] at hx
      rcases hx with hx | hx
      · exact Or.inr hx
      · exact Or.inl (List.mem_cons_of_mem _ hx)
    · rw [setSession, if_neg h] at hx
      simp only [List.map_cons, List.mem_cons] at hx
      rcases hx with hx | hx
      · exact Or.inl (by simp [hx])
      · rcases ih hx with h1 | h1
        · exact Or.inl (List.mem_cons_of_mem _ h1)
        · exact Or.inr h1

theorem nodupKeys_setSession (ss : Sessions) (u : String) (s : Session)
    (h : (ss.map Prod.fst).Nodup) :
    ((setSession ss u s).map Prod.fst).Nodup := by
  induction ss with
  | nil => simp [setSession]
  | cons p t ih =>
    obtain ⟨k, v⟩ := p
    simp only [List.map_cons, List.nodup_cons] at h
    by_cases hk : k = u
    · rw [setSession, if_pos hk]
      simp only [List.map_cons, List.nodup_cons]
      exact ⟨hk ▸ h.1, h.2⟩
    · rw [setSession, if_neg hk]
      simp only [List.map_cons, List.nodup_cons]
      refine ⟨?_, ih h.2⟩
      intro hmem
      rcases mem_keys_setSession t u s k hmem with h1 | h1
      · exact h.1 h1
      · exact hk h1

theorem lookupSession_eraseSession_self (ss : Sessions) (u : String)
    (h : (ss.map Prod.fst).Nodup) :
    lookupSession (eraseSession ss u) u = none := by
  induction ss with
  | nil => simp [eraseSession, lookupSession]
  | cons p t ih =>
    obtain ⟨k, v⟩ := p
    simp only [List.map_cons, List.nodup_cons] at h
    by_cases hk : k = u
    · rw [eraseSession, if_pos hk]
      exact lookupSession_eq_none_of_not_mem t u (hk ▸ h.1)
    · simp [eraseSession, lookupSession, hk, ih h.2]

end StoreLemmas

section HandlerLemmas

/-- An interactive reply whose id is neither empty nor "start_quiz" reaches
the answer branch, with the store as left by the ensure step. -/
theorem webhook_eq_handleAnswer (bank : List Row) (ss : Sessions) (u bid : String)
    (sess : Session) (r : InteractiveReply)
    (hid : r.idOf = some bid) (hs : lookupSession ss u = some sess)
    (hb0 : bid ≠ "") (hb1 : bid ≠ "start_quiz") :
    webhook bank ss (interactiveEvent u r) = handleAnswer bank ss u sess bid := by
  simp [webhook, interactiveEvent, hid, hs, hb0, hb1]

/-- A row satisfying the §3 invariant has a present (non-NA) option cell in
the column named by the stringified correct option. -/
theorem rowOK_optCell (row : Row) (co : Int)
    (hco : row.correctOption = some co) (hok : rowOK row = true) :
    ∃ s, row.optCellByStr (toString co) = Cell.val s := by
  unfold rowOK at hok
  rw [hco] at hok
  rw [List.any_eq_true] at hok
  obtain ⟨p, hp, hpc⟩ := hok
  simp only [decide_eq_true_eq] at hpc
  unfold collectOptions at hp
  rw [List.mem_filterMap] at hp
  obtain ⟨i, hi, hmatch⟩ := hp
  cases hcell : row.optCell i with
  | absent => rw [hcell] at hmatch; cases hmatch
  | nan => rw [hcell] at hmatch; cases hmatch
  | val s =>
    rw [hcell] at hmatch
    have hpis : p = (i, s) := by
      cases hmatch
      rfl
    subst hpis
    simp only at hpc
    have hi4 : i = 1 ∨ i = 2 ∨ i = 3 ∨ i = 4 := by
      simpa using hi
    refine ⟨s, ?_⟩
    rcases hi4 with rfl | rfl | rfl | rfl <;>
      rw [← hpc] <;> simpa [Row.optCellByStr] using hcell

end HandlerLemmas

/-- C1: with an empty question bank, a "start_quiz" reply from a user in
`AWAITING_START` does send the no-content notice, but — contrary to the
claim — the handler first executes `user_sessions[from_number]["q_index"] = 0`,
so the session's question pointer does not stay unset: the session lands in
`IN_PROGRESS` at index 0. This closed run exhibits the violation. -/
theorem C1_counterexample :
    webhook [] [("u", ({score := 0, q_index := none} : Session))]
        (interactiveEvent "u" (InteractiveReply.buttonReply "start_quiz"))
      = ([("u", {score := 0, q_index := some 0})],
         [Outbound.text "u" "⚠️ कोई प्रश्न लोड नहीं हुआ। Excel फ़ाइल देखें।"], 200) ∧
    some (0 : Nat) ≠ (none : Option Nat) := by
  exact ⟨rfl, by decide⟩

/-- C1 (amended): when the bank is empty, a start action sends exactly the
no-content notice, answers 200, and sets the session's question pointer to 0
(entering `IN_PROGRESS`) while keeping the score. -/
theorem C1_amended_empty_bank_start (ss : Sessions) (u : String) (sess : Session)
    (r : InteractiveReply)
    (hid : r.idOf = some "start_quiz") (hs : lookupSession ss u = some sess) :
    lookupSession (webhook [] ss (interactiveEvent u r)).1 u
        = some {score := sess.score, q_index := some 0} ∧
    (webhook [] ss (interactiveEvent u r)).2.1
        = [Outbound.text u "⚠️ कोई प्रश्न लोड नहीं हुआ। Excel फ़ाइल देखें।"] ∧
    (webhook [] ss (interactiveEvent u r)).2.2 = 200 := by
  have hw : webhook [] ss (interactiveEvent u r)
      = (setSession ss u {score := sess.score, q_index := some 0},
         [Outbound.text u "⚠️ कोई प्रश्न लोड नहीं हुआ। Excel फ़ाइल देखें।"], 200) := by
    simp [webhook, interactiveEvent, hid, hs]
  rw [hw]
  exact ⟨lookupSession_setSession_self ss u _, rfl, rfl⟩

/-- C1 amended, instantiated: one user in `AWAITING_START`, empty bank,
button reply "start_quiz". -/
theorem C1_amended_empty_bank_start_witness :
    lookupSession (webhook [] [("u", ({score := 3, q_index := none} : Session))]
        (interactiveEvent "u" (InteractiveReply.buttonReply "start_quiz"))).1 "u"
        = some {score := 3, q_index := some 0} ∧
    (webhook [] [("u", ({score := 3, q_index := none} : Session))]
        (interactiveEvent "u" (InteractiveReply.buttonReply "start_quiz"))).2.1
        = [Outbound.text "u" "⚠️ कोई प्रश्न लोड नहीं हुआ। Excel फ़ाइल देखें।"] ∧
    (webhook [] [("u", ({score := 3, q_index := none} : Session))]
        (interactiveEvent "u" (InteractiveReply.buttonReply "start_quiz"))).2.2 = 200 :=
  C1_amended_empty_bank_start [("u", {score := 3, q_index := none})] "u"
    {score := 3, q_index := none} (InteractiveReply.buttonReply "start_quiz") rfl rfl

/-- C10: a "start_quiz" reply on any existing session — including one
mid-quiz — resets the question pointer to 0 and carries the accumulated
score over unchanged, whatever the bank contents. -/
theorem C10_restart_keeps_score (bank : List Row) (ss : Sessions) (u : String)
    (sess : Session) (r : InteractiveReply)
    (hid : r.idOf = some "start_quiz") (hs : lookupSession ss u = some sess) :
    lookupSession (webhook bank ss (interactiveEvent u r)).1 u
      = some {score := sess.score, q_index := some 0} := by
  by_cases hb : bank.isEmpty
  · simp [webhook, interactiveEvent, hid, hs, hb, lookupSession_setSession_self]
  · simp [webhook, interactiveEvent, hid, hs, hb, lookupSession_setSession_self]

/-- C10, instantiated: a session mid-quiz (score 2, pointer at question 3)
restarted over a one-row bank keeps its score and returns to index 0. -/
theorem C10_restart_keeps_score_witness :
    lookupSession (webhook [⟨Cell.val "Q", "Q", Cell.val "A", Cell.val "B",
        Cell.absent, Cell.absent, some 1, []⟩]
        [("u", ({score := 2, q_index := some 3} : Session))]
        (interactiveEvent "u" (InteractiveReply.listReply "start_quiz"))).1 "u"
      = some {score := 2, q_index := some 0} :=
  C10_restart_keeps_score _ _ "u" {score := 2, q_index := some 3}
    (InteractiveReply.listReply "start_quiz") rfl rfl

section AnswerLemmas

/-- Answer for a non-final question on an invariant-satisfying row: the
stored session gets score incremented exactly when the id string matches,
and the pointer moves to the next index, in both branches. -/
theorem handleAnswer_mid_lookup (bank : List Row) (ss : Sessions) (u bid : String)
    (sc i : Nat) (row : Row) (co : Int)
    (hrow : bank[i]? = some row) (hco : row.correctOption = some co)
    (hok : rowOK row = true) (hlt : i + 1 < bank.length) :
    lookupSession (handleAnswer bank ss u ⟨sc, some i⟩ bid).1 u
      = some ⟨if bid = toString co then sc + 1 else sc, some (i + 1)⟩ := by
  by_cases hc : bid = toString co
  · simp [handleAnswer, hrow, hco, hc, hlt, lookupSession_setSession_self]
  · obtain ⟨s, hcell⟩ := rowOK_optCell row co hco hok
    simp [handleAnswer, hrow, hco, hc, hcell, Cell.interp, hlt,
      lookupSession_setSession_self]

/-- Answer for the final question on an invariant-satisfying row: the
session is deleted after the final-score message. -/
theorem handleAnswer_last_lookup (bank : List Row) (ss : Sessions) (u bid : String)
    (sc i : Nat) (row : Row) (co : Int)
    (hrow : bank[i]? = some row) (hco : row.correctOption = some co)
    (hok : rowOK row = true) (heq : i + 1 = bank.length)
    (hnd : (ss.map Prod.fst).Nodup) :
    lookupSession (handleAnswer bank ss u ⟨sc, some i⟩ bid).1 u = none := by
  have hnlt : ¬ (i + 1 < bank.length) := by omega
  by_cases hc : bid = toString co
  · simp only [handleAnswer, hrow, hco]
    rw [if_pos hc, if_neg hnlt]
    exact lookupSession_eraseSession_self _ u
      (nodupKeys_setSession _ u _ (nodupKeys_setSession _ u _ hnd))
  · obtain ⟨s, hcell⟩ := rowOK_optCell row co hco hok
    simp only [handleAnswer, hrow, hco, hcell, Cell.interp]
    rw [if_neg hc, if_neg hnlt]
    exact lookupSession_eraseSession_self _ u (nodupKeys_setSession _ u _ hnd)

end AnswerLemmas

/-- C2: in `IN_PROGRESS` at an in-range index `i` over rows satisfying the
§3 invariant, any interactive reply whose id is not "start_quiz" (and not
empty, which the handler drops) moves the question pointer to exactly
`i + 1`, whatever the id; at the last question the pointer still advances
and, having reached the bank size, the session is deleted after the final
score (the spec's `COMPLETED` removal). -/
theorem C2_answer_advances_pointer (bank : List Row) (ss : Sessions) (u bid : String)
    (r : InteractiveReply) (sc i : Nat) (row : Row) (co : Int)
    (hid : r.idOf = some bid)
    (hs : lookupSession ss u = some ⟨sc, some i⟩)
    (hrow : bank[i]? = some row)
    (hco : row.correctOption = some co)
    (hok : rowOK row = true)
    (hb0 : bid ≠ "") (hb1 : bid ≠ "start_quiz")
    (hnd : (ss.map Prod.fst).Nodup) :
    (i + 1 < bank.length →
      Option.map Session.q_index
          (lookupSession (webhook bank ss (interactiveEvent u r)).1 u)
        = some (some (i + 1))) ∧
    (i + 1 = bank.length →
      lookupSession (webhook bank ss (interactiveEvent u r)).1 u = none) := by
  rw [webhook_eq_handleAnswer bank ss u bid ⟨sc, some i⟩ r hid hs hb0 hb1]
  constructor
  · intro hlt
    rw [handleAnswer_mid_lookup bank ss u bid sc i row co hrow hco hok hlt]
    rfl
  · intro heq
    exact handleAnswer_last_lookup bank ss u bid sc i row co hrow hco hok heq hnd

/-- C2, instantiated: on the two-question fixture bank, an *incorrect*
reply "2" on question 0 still advances the pointer to 1. -/
theorem C2_answer_advances_pointer_witness :
    Option.map Session.q_index
        (lookupSession (webhook bank2 ssU0
          (interactiveEvent "u" (InteractiveReply.buttonReply "2"))).1 "u")
      = some (some 1) :=
  (C2_answer_advances_pointer bank2 ssU0 "u" "2" (InteractiveReply.buttonReply "2")
    0 0 rowQ1 1 rfl (by decide) (by decide) (by decide) (by decide) (by decide)
    (by decide) (by decide)).1 (by decide)

/-- C3: in `IN_PROGRESS` on an invariant-satisfying row, when the quiz
continues after the answer, the stored score becomes `sc + 1` exactly when
the submitted id string equals the stringified correct option number, and
stays `sc` otherwise. -/
theorem C3_score_iff_string_match (bank : List Row) (ss : Sessions) (u bid : String)
    (r : InteractiveReply) (sc i : Nat) (row : Row) (co : Int)
    (hid : r.idOf = some bid)
    (hs : lookupSession ss u = some ⟨sc, some i⟩)
    (hrow : bank[i]? = some row)
    (hco : row.correctOption = some co)
    (hok : rowOK row = true)
    (hb0 : bid ≠ "") (hb1 : bid ≠ "start_quiz")
    (hlt : i + 1 < bank.length) :
    (Option.map Session.score
        (lookupSession (webhook bank ss (interactiveEvent u r)).1 u)
      = some (sc + 1) ↔ bid = toString co) ∧
    (bid ≠ toString co →
      Option.map Session.score
          (lookupSession (webhook bank ss (interactiveEvent u r)).1 u)
        = some sc) := by
  rw [webhook_eq_handleAnswer bank ss u bid ⟨sc, some i⟩ r hid hs hb0 hb1]
  rw [handleAnswer_mid_lookup bank ss u bid sc i row co hrow hco hok hlt]
  by_cases hc : bid = toString co
  · simp [hc]
  · simp [hc]

/-- C3, instantiated: on the same fixture bank, the correct reply "1" on
question 0 (correct option 1) raises the score to 1, and the iff holds. -/
theorem C3_score_iff_string_match_witness :
    (Option.map Session.score
        (lookupSession (webhook bank2 ssU0
          (interactiveEvent "u" (InteractiveReply.buttonReply "1"))).1 "u")
      = some 1 ↔ "1" = toString (1 : Int)) ∧
    ("1" ≠ toString (1 : Int) →
      Option.map Session.score
          (lookupSession (webhook bank2 ssU0
            (interactiveEvent "u" (InteractiveReply.buttonReply "1"))).1 "u")
        = some 0) :=
  C3_score_iff_string_match bank2 ssU0 "u" "1" (InteractiveReply.buttonReply "1")
    0 0 rowQ1 1 rfl (by decide) (by decide) (by decide) (by decide) (by decide)
    (by decide) (by decide)

/-- C7: the claim says a question whose stored correct option is not a
present option key is "never correct". In the code the submitted id is
compared to `str(int(row["Correct Option"]))` *before* any option lookup,
so submitting the absent number itself (here "5" against options {1}) is
scored as correct: the score rises to 1 and the quiz completes with 1/1 —
refuting "every submitted answer … is treated as incorrect, the score is
unchanged". -/
theorem C7_counterexample :
    webhook [rowBad5] [("u", ({score := 0, q_index := some 0} : Session))]
        (interactiveEvent "u" (InteractiveReply.buttonReply "5"))
      = ([], [Outbound.text "u" "✅ सही उत्तर!\nकोई विवरण उपलब्ध नहीं।",
              Outbound.text "u" "🎉 प्रशिक्षण पूरा हुआ!\nआपका स्कोर: 1/1"], 200) ∧
    (1 : Nat) ≠ 0 := by
  exact ⟨by decide, by decide⟩

/-- C4: rendering is deterministic in the number of collected options:
with 1–3 options `send_question` builds a button set, one button per
option, id the option number as a string, title the option text truncated
to 20 characters; with 4 options it builds a single-select list with the
same id/title mapping. The last conjunct ties `renderRow` back to
`send_question` at any in-range index. -/
theorem C4_render_deterministic (toId : String) (qi : Nat) (r : Row) :
    (1 ≤ (collectOptions r).length → (collectOptions r).length ≤ 3 →
      renderRow toId qi r = Outbound.buttons toId
        ("प्रश्न " ++ toString (qi + 1) ++ ": " ++ questionText r)
        ((collectOptions r).map fun p => (toString p.1, truncate20 p.2))) ∧
    ((collectOptions r).length = 4 →
      renderRow toId qi r = Outbound.list toId
        ("प्रश्न " ++ toString (qi + 1) ++ ": " ++ questionText r) "विकल्प चुनें"
        ((collectOptions r).map fun p => (toString p.1, truncate20 p.2))) ∧
    (∀ bank : List Row, bank[qi]? = some r →
      send_question bank toId qi = some [renderRow toId qi r]) := by
  refine ⟨?_, ?_, ?_⟩
  · intro _ h3
    simp [renderRow, h3]
  · intro h4
    have hgt : ¬ ((collectOptions r).length ≤ 3) := by omega
    simp [renderRow, hgt]
  · intro bank hb
    have hne : bank ≠ [] := by
      rintro rfl
      simp at hb
    simp [send_question, hne, hb]

/-- C4, instantiated: a 2-option row renders as buttons with number-string
ids and truncated titles; a 4-option row renders as the list control; both
reached through `send_question`. -/
theorem C4_render_deterministic_witness :
    renderRow "u" 0 rowQ1
        = Outbound.buttons "u" "प्रश्न 1: Q1" [("1", "A"), ("2", "B")] ∧
    renderRow "u" 1 ⟨Cell.val "Q4", "Q4", Cell.val "aaaaaaaaaaaaaaaaaaaaaaaaa",
        Cell.val "b", Cell.val "c", Cell.val "d", some 1, []⟩
        = Outbound.list "u" "प्रश्न 2: Q4" "विकल्प चुनें"
            [("1", "aaaaaaaaaaaaaaaaaaaa"), ("2", "b"), ("3", "c"), ("4", "d")] ∧
    send_question bank2 "u" 0 = some [renderRow "u" 0 rowQ1] := by
  refine ⟨?_, ?_, ?_⟩
  · exact (C4_render_deterministic "u" 0 rowQ1).1 (by decide) (by decide)
  · exact (C4_render_deterministic "u" 1 _).2.1 (by decide)
  · exact (C4_render_deterministic "u" 0 rowQ1).2.2 bank2 (by decide)

/-- C5: the claim covers "the first inbound event of any type (text or
interactive)". A first *interactive* reply whose id is not "start_quiz"
creates the session and then falls into the answer branch with
`q_index = None`, where `df.iloc[None]` raises and the exception is
swallowed: zero outbound messages are produced, not "exactly one
greeting". -/
theorem C5_counterexample :
    webhook [] [] (interactiveEvent "u" (InteractiveReply.buttonReply "2"))
      = ([("u", {score := 0, q_index := none})], [], 200) ∧
    ([] : List Outbound) ≠ [startPrompt "u"] := by
  exact ⟨by decide, by decide⟩

/-- C5 (amended): for a user with no session, a first inbound *text*
message creates the session as `{score: 0, q_index: None}` (the spec's
`AWAITING_START`) and sends exactly one greeting/start prompt. -/
theorem C5_amended_first_text_greets (bank : List Row) (ss : Sessions) (u : String)
    (hs : lookupSession ss u = none) :
    webhook bank ss (textEvent u)
      = (setSession ss u {score := 0, q_index := none}, [startPrompt u], 200) ∧
    lookupSession (setSession ss u {score := 0, q_index := none}) u
      = some {score := 0, q_index := none} := by
  refine ⟨?_, lookupSession_setSession_self ss u _⟩
  simp [webhook, textEvent, hs, lookupSession_setSession_self]

/-- C5 amended, instantiated: empty store, first text message. -/
theorem C5_amended_first_text_greets_witness :
    webhook bank2 [] (textEvent "u")
      = (setSession [] "u" {score := 0, q_index := none}, [startPrompt "u"], 200) ∧
    lookupSession (setSession [] "u" {score := 0, q_index := none}) "u"
      = some {score := 0, q_index := none} :=
  C5_amended_first_text_greets bank2 [] "u" rfl

/-- C6: in `AWAITING_START`, a stray *interactive* reply (id ≠
"start_quiz") does not re-send the greeting: the answer branch raises on
`q_index = None`, the exception is swallowed, and no outbound call is
made (the session itself is unchanged). -/
theorem C6_counterexample :
    webhook [] [("u", ({score := 0, q_index := none} : Session))]
        (interactiveEvent "u" (InteractiveReply.buttonReply "2"))
      = ([("u", {score := 0, q_index := none})], [], 200) ∧
    ([] : List Outbound) ≠ [startPrompt "u"] := by
  exact ⟨by decide, by decide⟩

/-- C6 (amended): for a session in `AWAITING_START` (pointer unset), every
non-start event leaves the store literally unchanged — handling is
idempotent — and the greeting is re-sent for *text* events only, while
interactive non-start replies and unknown interactive sub-types produce no
outbound message. -/
theorem C6_amended_awaiting_nonstart (bank : List Row) (ss : Sessions)
    (u : String) (sc : Nat)
    (hs : lookupSession ss u = some ⟨sc, none⟩) :
    webhook bank ss (textEvent u) = (ss, [startPrompt u], 200) ∧
    (∀ (r : InteractiveReply) (bid : String),
      r.idOf = some bid → bid ≠ "start_quiz" →
      webhook bank ss (interactiveEvent u r) = (ss, [], 200)) ∧
    webhook bank ss (interactiveEvent u InteractiveReply.unknown)
      = (ss, [], 200) := by
  refine ⟨?_, ?_, ?_⟩
  · simp [webhook, textEvent, hs]
  · intro r bid hid hb1
    by_cases hb0 : bid = ""
    · subst hb0
      simp [webhook, interactiveEvent, hid, hs]
    · rw [webhook_eq_handleAnswer bank ss u bid ⟨sc, none⟩ r hid hs hb0 hb1]
      simp [handleAnswer]
  · simp [webhook, interactiveEvent, InteractiveReply.idOf, hs]

/-- C6 amended, instantiated: one `AWAITING_START` session; text re-sends
the greeting, a stray button reply "2" and an unknown sub-type send
nothing; the store is unchanged in all three runs. -/
theorem C6_amended_awaiting_nonstart_witness :
    webhook [] [("u", ({score := 0, q_index := none} : Session))] (textEvent "u")
      = ([("u", {score := 0, q_index := none})], [startPrompt "u"], 200) ∧
    webhook [] [("u", ({score := 0, q_index := none} : Session))]
        (interactiveEvent "u" (InteractiveReply.listReply "2"))
      = ([("u", {score := 0, q_index := none})], [], 200) ∧
    webhook [] [("u", ({score := 0, q_index := none} : Session))]
        (interactiveEvent "u" InteractiveReply.unknown)
      = ([("u", {score := 0, q_index := none})], [], 200) := by
  have h := C6_amended_awaiting_nonstart [] [("u", {score := 0, q_index := none})]
    "u" 0 rfl
  exact ⟨h.1, h.2.1 (InteractiveReply.listReply "2") "2" rfl (by decide), h.2.2⟩

/-- C8: for an *unknown interactive sub-type* from a previously unseen
sender, the handler has already executed the session-ensure step before
bailing out, so the store is not left unchanged: a fresh `AWAITING_START`
session is created (no outbound send, still 200). -/
theorem C8_counterexample :
    webhook [] [] (interactiveEvent "u" InteractiveReply.unknown)
      = ([("u", {score := 0, q_index := none})], [], 200) ∧
    ([("u", ({score := 0, q_index := none} : Session))] : Sessions)
      ≠ ([] : Sessions) := by
  exact ⟨by decide, by decide⟩

/-- C8 (amended): malformed events make no outbound send, never raise to
the caller, and report 200. Deliveries with no message list and messages
with no "from" identifier also leave the store untouched; an unknown
interactive sub-type leaves every existing session unchanged but, for an
unseen sender, first creates that sender's `AWAITING_START` session. -/
theorem C8_amended_malformed_events (bank : List Row) (ss : Sessions)
    (u : String) (t : MsgType) :
    webhook bank ss Event.malformed = (ss, [], 200) ∧
    webhook bank ss (Event.withMessage ⟨none, t⟩) = (ss, [], 200) ∧
    (lookupSession ss u = none →
      webhook bank ss (interactiveEvent u InteractiveReply.unknown)
        = (setSession ss u {score := 0, q_index := none}, [], 200)) ∧
    (∀ s : Session, lookupSession ss u = some s →
      webhook bank ss (interactiveEvent u InteractiveReply.unknown)
        = (ss, [], 200)) := by
  refine ⟨rfl, rfl, ?_, ?_⟩
  · intro h
    simp [webhook, interactiveEvent, InteractiveReply.idOf, h]
  · intro s h
    simp [webhook, interactiveEvent, InteractiveReply.idOf, h]

/-- C8 amended, instantiated: the three malformed shapes over the empty
store (unknown sub-type hitting the unseen-sender branch). -/
theorem C8_amended_malformed_events_witness :
    webhook bank2 [] Event.malformed = ([], [], 200) ∧
    webhook bank2 [] (Event.withMessage ⟨none, MsgType.text⟩) = ([], [], 200) ∧
    webhook bank2 [] (interactiveEvent "u" InteractiveReply.unknown)
      = (setSession [] "u" {score := 0, q_index := none}, [], 200) := by
  have h := C8_amended_malformed_events bank2 [] "u" MsgType.text
  exact ⟨h.1, h.2.1, h.2.2.1 rfl⟩

/-- A row failing the §3 invariant — stored correct option `co` within
1..4 but not among the collected options — has the "Option co" column
either absent or present with a blank (NA) cell: the two states exhaust
the invariant-violating scope for in-range stored numbers. -/
theorem not_rowOK_cell_cases (row : Row) (co : Int)
    (hco : row.correctOption = some co) (hnk : rowOK row = false)
    (h1 : 1 ≤ co) (h4 : co ≤ 4) :
    row.optCellByStr (toString co) = Cell.absent ∨
    row.optCellByStr (toString co) = Cell.nan := by
  have hkey : ∀ p ∈ collectOptions row, ¬ ((p.1 : Int) = co) := by
    intro p hp
    unfold rowOK at hnk
    rw [hco] at hnk
    rw [List.any_eq_false] at hnk
    have h := hnk p hp
    simpa using h
  have hco4 : co = 1 ∨ co = 2 ∨ co = 3 ∨ co = 4 := by omega
  rcases hco4 with rfl | rfl | rfl | rfl
  · have ht : toString (1 : Int) = "1" := by decide
    rw [ht]
    cases hcell : row.opt1 with
    | absent => left; simp [Row.optCellByStr, hcell]
    | nan => right; simp [Row.optCellByStr, hcell]
    | val s =>
      refine absurd rfl (hkey ((1 : Nat), s) ?_)
      unfold collectOptions
      rw [List.mem_filterMap]
      exact ⟨1, by norm_num, by simp [Row.optCell, hcell]⟩
  · have ht : toString (2 : Int) = "2" := by decide
    rw [ht]
    cases hcell : row.opt2 with
    | absent => left; simp [Row.optCellByStr, hcell]
    | nan => right; simp [Row.optCellByStr, hcell]
    | val s =>
      refine absurd rfl (hkey ((2 : Nat), s) ?_)
      unfold collectOptions
      rw [List.mem_filterMap]
      exact ⟨2, by norm_num, by simp [Row.optCell, hcell]⟩
  · have ht : toString (3 : Int) = "3" := by decide
    rw [ht]
    cases hcell : row.opt3 with
    | absent => left; simp [Row.optCellByStr, hcell]
    | nan => right; simp [Row.optCellByStr, hcell]
    | val s =>
      refine absurd rfl (hkey ((3 : Nat), s) ?_)
      unfold collectOptions
      rw [List.mem_filterMap]
      exact ⟨3, by norm_num, by simp [Row.optCell, hcell]⟩
  · have ht : toString (4 : Int) = "4" := by decide
    rw [ht]
    cases hcell : row.opt4 with
    | absent => left; simp [Row.optCellByStr, hcell]
    | nan => right; simp [Row.optCellByStr, hcell]
    | val s =>
      refine absurd rfl (hkey ((4 : Nat), s) ?_)
      unfold collectOptions
      rw [List.mem_filterMap]
      exact ⟨4, by norm_num, by simp [Row.optCell, hcell]⟩

/-- C7 (amended): for a question whose stored correct option number is
not a key present in its options, evaluation still compares id strings
before any option lookup. For an in-range stored number that scope splits
into exactly two cell states (first conjunct): the "Option n" column is
absent, or it exists with a blank (NA) cell. A submission equal to the
stringified correct number scores (+1) and advances in either state.
A non-matching submission: with the column absent, the `row[f'Option n']`
lookup raises `KeyError`, the outer `except` swallows it — no feedback,
score and pointer unchanged, still HTTP 200; with a blank cell, pandas
returns NaN instead of raising, so the incorrect-answer feedback is sent
naming "nan" as the correct answer and the pointer advances (score
unchanged). -/
theorem C7_amended_not_present (bank : List Row) (ss : Sessions) (u bid : String)
    (r : InteractiveReply) (sc i : Nat) (row : Row) (co : Int)
    (hid : r.idOf = some bid)
    (hs : lookupSession ss u = some ⟨sc, some i⟩)
    (hrow : bank[i]? = some row)
    (hco : row.correctOption = some co)
    (hb0 : bid ≠ "") (hb1 : bid ≠ "start_quiz")
    (hlt : i + 1 < bank.length) :
    (rowOK row = false → 1 ≤ co → co ≤ 4 →
      row.optCellByStr (toString co) = Cell.absent ∨
      row.optCellByStr (toString co) = Cell.nan) ∧
    (bid = toString co →
      lookupSession (webhook bank ss (interactiveEvent u r)).1 u
        = some {score := sc + 1, q_index := some (i + 1)}) ∧
    (bid ≠ toString co → row.optCellByStr (toString co) = Cell.absent →
      webhook bank ss (interactiveEvent u r) = (ss, [], 200)) ∧
    (bid ≠ toString co → row.optCellByStr (toString co) = Cell.nan →
      webhook bank ss (interactiveEvent u r)
        = (setSession ss u {score := sc, q_index := some (i + 1)},
           Outbound.text u ("❌ गलत उत्तर।\n👉 सही उत्तर: " ++ "nan"
             ++ "\nℹ️ कारण: " ++ explGet row (toString co))
             :: (send_question bank u (i + 1)).getD [], 200)) := by
  refine ⟨fun hnk hl hr => not_rowOK_cell_cases row co hco hnk hl hr, ?_, ?_, ?_⟩
  · intro hc
    rw [webhook_eq_handleAnswer bank ss u bid ⟨sc, some i⟩ r hid hs hb0 hb1]
    simp only [handleAnswer, hrow, hco]
    rw [if_pos hc, if_pos hlt]
    exact lookupSession_setSession_self _ u _
  · intro hc habs
    rw [webhook_eq_handleAnswer bank ss u bid ⟨sc, some i⟩ r hid hs hb0 hb1]
    simp only [handleAnswer, hrow, hco, habs, Cell.interp]
    rw [if_neg hc]
  · intro hc hnan
    rw [webhook_eq_handleAnswer bank ss u bid ⟨sc, some i⟩ r hid hs hb0 hb1]
    simp only [handleAnswer, hrow, hco, hnan, Cell.interp]
    rw [if_neg hc, if_pos hlt]

/-- C7 amended, instantiated on the blank-cell state: bank
`[rowNan2, rowQ2]` (correct option 2 stored, "Option 2" cell blank), the
non-matching submission "1" gets the incorrect-answer feedback naming
"nan" and the pointer advances with the score unchanged; the dichotomy
conjunct is discharged at `rowOK rowNan2 = false`. -/
theorem C7_amended_not_present_witness :
    (rowOK rowNan2 = false → 1 ≤ (2 : Int) → (2 : Int) ≤ 4 →
      rowNan2.optCellByStr (toString (2 : Int)) = Cell.absent ∨
      rowNan2.optCellByStr (toString (2 : Int)) = Cell.nan) ∧
    ("1" = toString (2 : Int) →
      lookupSession (webhook [rowNan2, rowQ2] ssU0
          (interactiveEvent "u" (InteractiveReply.buttonReply "1"))).1 "u"
        = some {score := 1, q_index := some 1}) ∧
    ("1" ≠ toString (2 : Int) →
      rowNan2.optCellByStr (toString (2 : Int)) = Cell.absent →
      webhook [rowNan2, rowQ2] ssU0
          (interactiveEvent "u" (InteractiveReply.buttonReply "1"))
        = (ssU0, [], 200)) ∧
    ("1" ≠ toString (2 : Int) →
      rowNan2.optCellByStr (toString (2 : Int)) = Cell.nan →
      webhook [rowNan2, rowQ2] ssU0
          (interactiveEvent "u" (InteractiveReply.buttonReply "1"))
        = (setSession ssU0 "u" {score := 0, q_index := some 1},
           Outbound.text "u" ("❌ गलत उत्तर।\n👉 सही उत्तर: " ++ "nan"
             ++ "\nℹ️ कारण: " ++ explGet rowNan2 (toString (2 : Int)))
             :: (send_question [rowNan2, rowQ2] "u" 1).getD [], 200)) :=
  C7_amended_not_present [rowNan2, rowQ2] ssU0 "u" "1"
    (InteractiveReply.buttonReply "1") 0 0 rowNan2 2 rfl (by decide) (by decide)
    (by decide) (by decide) (by decide) (by decide)
